import Mathlib

/-!
# Verification of the road-telemetry pipeline (agent / edge / store)

Shallow embedding of the repository's three source files:

* `src/agent/src/file_datasource.py` — the Sample Aggregator (`FileDatasource.read`),
* `src/edge/app/usecases/data_processing.py` — the Road-State Classifier
  (`process_agent_data`),
* `src/store/main.py` — the Record Store CRUD endpoints, the WebSocket
  subscription registry and the fan-out function `send_data_to_subscribers`.

Numeric modelling: accelerometer samples are integer triples (the agent parses
them with `map(int, row)`), GPS degrees are modelled as rationals (exact stand-in
for Python floats; no claim depends on rounding), and timestamps are abstract
instants modelled as naturals (the code only moves them around).
-/

set_option autoImplicit false

namespace IES

/-! ## Data model (src/store/main.py pydantic models, src/agent domain types) -/

/-- Python `AccelerometerData(x, y, z)` — integer triple, as parsed by the agent. -/
structure AccelerometerData where
  x : Int
  y : Int
  z : Int
  deriving DecidableEq, Repr

/-- Python `GpsData(latitude, longitude)` — degrees, modelled exactly as rationals. -/
structure GpsData where
  latitude : Rat
  longitude : Rat
  deriving DecidableEq, Repr

/-- Python `AgentData` — one composite sensor sample (src/store/main.py lines 75-79). -/
structure AgentData where
  user_id : Int
  accelerometer : AccelerometerData
  gps : GpsData
  timestamp : Nat
  deriving DecidableEq, Repr

/-- Python `ProcessedAgentData` — a classified sample (src/store/main.py lines 94-96).
`road_state` is a string in the source (`"unknown" | "pit" | "hill" | "flat"`). -/
structure ProcessedAgentData where
  road_state : String
  agent_data : AgentData
  deriving DecidableEq, Repr

/-! ## Road-State Classifier (src/edge/app/usecases/data_processing.py) -/

/-- Embedding of `process_agent_data` (lines 5-25): builds a `ProcessedAgentData` with
`road_state = "unknown"`, then assigns `"pit"` if `y < -100`, `"hill"` if
`y > 100`, else `"flat"`, and returns it. -/
def process_agent_data (agent_data : AgentData) : ProcessedAgentData :=
  let process_data : ProcessedAgentData :=
    { road_state := "unknown", agent_data := agent_data }
  if agent_data.accelerometer.y < -100 then
    { process_data with road_state := "pit" }
  else if agent_data.accelerometer.y > 100 then
    { process_data with road_state := "hill" }
  else
    { process_data with road_state := "flat" }

/-- Events on the `ProcessedAgentData` object built inside `process_agent_data`:
its construction (line 16) and each in-place field assignment
(`process_data.road_state = ...`, lines 19/21/23). -/
inductive PadEvent where
  /-- `ProcessedAgentData(road_state=..., agent_data=...)` — object construction. -/
  | create (road_state : String)
  /-- `process_data.road_state = new` — in-place mutation of the existing object. -/
  | setRoadState (new : String)
  deriving DecidableEq, Repr

/-- The sequence of object events `process_agent_data` performs, statement by
statement: line 16 constructs with `"unknown"`, then exactly one of the
branches at lines 18-23 assigns `road_state` on the existing object. -/
def process_agent_data_events (agent_data : AgentData) : List PadEvent :=
  [PadEvent.create "unknown"] ++
    (if agent_data.accelerometer.y < -100 then [PadEvent.setRoadState "pit"]
     else if agent_data.accelerometer.y > 100 then [PadEvent.setRoadState "hill"]
     else [PadEvent.setRoadState "flat"])

/-! ## Sample Aggregator (src/agent/src/file_datasource.py) -/

/-- Python `Accelerometer(x, y, z)` — agent domain type, integers (`map(int, row)`). -/
structure Accelerometer where
  x : Int
  y : Int
  z : Int
  deriving DecidableEq, Repr

/-- Python `Gps(longitude, latitude)` — agent domain type. -/
structure Gps where
  longitude : Rat
  latitude : Rat
  deriving DecidableEq, Repr

/-- Python `Parking(empty_count, gps)` — agent domain type. -/
structure Parking where
  empty_count : Int
  gps : Gps
  deriving DecidableEq, Repr

/-- Python `AggregatedData(accelerometer, gps, parking, timestamp, user_id)`. -/
structure AggregatedData where
  accelerometer : Accelerometer
  gps : Gps
  parking : Parking
  timestamp : Nat
  user_id : Int
  deriving DecidableEq, Repr

/-- Python's `zip` over three sequences: pairs up to the shortest. -/
def zip3 {α β γ : Type} : List α → List β → List γ → List (α × β × γ)
  | a :: as, b :: bs, c :: cs => (a, b, c) :: zip3 as bs cs
  | _, _, _ => []

/-- Embedding of `FileDatasource.read` (lines 26-45): zips the three sensor lists and builds
one `AggregatedData` per aligned index with `datetime.now()` and
`config.USER_ID`.  The wall clock is abstracted as `now : Nat → Nat`, giving the
instant observed by the `datetime.now()` call of the i-th loop iteration; the
configured user id is the parameter `user_id`. -/
def FileDatasource.read (accelerometer_data : List Accelerometer)
    (gps_data : List Gps) (parking_data : List Parking)
    (now : Nat → Nat) (user_id : Int) : List AggregatedData :=
  (zip3 accelerometer_data gps_data parking_data).mapIdx fun i t =>
    { accelerometer := t.1, gps := t.2.1, parking := t.2.2,
      timestamp := now i, user_id := user_id }

/-! ## Record Store (src/store/main.py, table `processed_agent_data`) -/

/-- One row of the `processed_agent_data` table (columns at lines 34-46). -/
structure Row where
  id : Nat
  road_state : String
  user_id : Int
  x : Int
  y : Int
  z : Int
  latitude : Rat
  longitude : Rat
  timestamp : Nat
  deriving DecidableEq, Repr

/-- The database state: the table's rows plus the next server-assigned id. -/
structure Store where
  rows : List Row
  next_id : Nat
  deriving DecidableEq, Repr

/-- The `insert_values` dict built at lines 136-145 of the create handler:
the scalar-flattened fields of a `ProcessedAgentData`, without an id
(the id is assigned by the database on insert). -/
structure InsertValues where
  road_state : String
  user_id : Int
  x : Int
  y : Int
  z : Int
  latitude : Rat
  longitude : Rat
  timestamp : Nat
  deriving DecidableEq, Repr

/-- Flattening of a `ProcessedAgentData` into `insert_values` (lines 136-145). -/
def insertValues (item : ProcessedAgentData) : InsertValues :=
  { road_state := item.road_state
    user_id := item.agent_data.user_id
    x := item.agent_data.accelerometer.x
    y := item.agent_data.accelerometer.y
    z := item.agent_data.accelerometer.z
    latitude := item.agent_data.gps.latitude
    longitude := item.agent_data.gps.longitude
    timestamp := item.agent_data.timestamp }

/-- A stored row: the server-assigned id together with the inserted values. -/
def Row.ofValues (i : Nat) (v : InsertValues) : Row :=
  { id := i, road_state := v.road_state, user_id := v.user_id,
    x := v.x, y := v.y, z := v.z,
    latitude := v.latitude, longitude := v.longitude, timestamp := v.timestamp }

/-- Model of `session.execute(processed_agent_data.insert().values(...)); session.commit()`:
the database assigns the fresh id `next_id` and appends the row. -/
def Store.insert (st : Store) (v : InsertValues) : Row × Store :=
  let row := Row.ofValues st.next_id v
  (row, { rows := st.rows ++ [row], next_id := st.next_id + 1 })

/-- The Record Store's `create` of a single `ProcessedAgentData`
(one iteration of the loop at lines 134-148): flatten and insert. -/
def Store.create (st : Store) (item : ProcessedAgentData) : Row × Store :=
  st.insert (insertValues item)

/-- Model of `select(processed_agent_data).where(c.id == ...).first()` — the first row
with the given id, or `None`. -/
def find_row (st : Store) (processed_agent_data_id : Nat) : Option Row :=
  st.rows.find? fun r => r.id == processed_agent_data_id

/-- Embedding of `read_processed_agent_data` (lines 162-179): select by id; 404 when the
query returns `None`, otherwise the row. -/
def read_processed_agent_data (st : Store) (processed_agent_data_id : Nat) :
    Except (Nat × String) Row :=
  match find_row st processed_agent_data_id with
  | none => .error (404, "ProcessedAgentData not found")
  | some result => .ok result

/-- Model of `session.execute(select(processed_agent_data)).all()` — SQLAlchemy returns
the list of all rows; it is a list (possibly empty), never `None`. -/
def query_all (st : Store) : Option (List Row) :=
  some st.rows

/-- Embedding of `list_processed_agent_data` (lines 182-194): run the select-all query, and
404 if the result `is None`, otherwise return the rows. -/
def list_processed_agent_data (st : Store) : Except (Nat × String) (List Row) :=
  match query_all st with
  | none => .error (404, "No data was found")
  | some result => .ok result

/-- The `.values(...)` of the update statement (lines 215-224): every field of
the row except the id is overwritten from `data`. -/
def Row.updateWith (r : Row) (data : ProcessedAgentData) : Row :=
  { id := r.id
    road_state := data.road_state
    user_id := data.agent_data.user_id
    x := data.agent_data.accelerometer.x
    y := data.agent_data.accelerometer.y
    z := data.agent_data.accelerometer.z
    latitude := data.agent_data.gps.latitude
    longitude := data.agent_data.gps.longitude
    timestamp := data.agent_data.timestamp }

/-- Embedding of `update_processed_agent_data` (lines 197-233): select by id; 404 and no
write when absent; otherwise overwrite the row's fields, commit, re-select the
row and return whatever that second select's `.first()` yields (an `Option`,
exactly as the Python returns `updated_record` which could be `None`). -/
def update_processed_agent_data (st : Store) (processed_agent_data_id : Nat)
    (data : ProcessedAgentData) : Except (Nat × String) (Option Row) × Store :=
  match find_row st processed_agent_data_id with
  | none => (.error (404, "ProcessedAgentData not found"), st)
  | some _ =>
      let st' : Store :=
        { st with rows := st.rows.map fun r =>
            if r.id == processed_agent_data_id then r.updateWith data else r }
      (.ok (find_row st' processed_agent_data_id), st')

/-- Embedding of `delete_processed_agent_data` (lines 236-257): select by id; 404 and no
write when absent; otherwise delete the rows with that id, commit, and return
the previously selected record. -/
def delete_processed_agent_data (st : Store) (processed_agent_data_id : Nat) :
    Except (Nat × String) Row × Store :=
  match find_row st processed_agent_data_id with
  | none => (.error (404, "ProcessedAgentData not found"), st)
  | some record =>
      (.ok record,
       { st with rows := st.rows.filter fun r => !(r.id == processed_agent_data_id) })

/-! ## Subscription Registry (src/store/main.py lines 99-121)

`subscriptions : Dict[int, Set[WebSocket]]` is modelled as a partial map from
user ids to finite listener sets; a listener set is a duplicate-free list (the
order standing for the set's iteration order). Listener handles are naturals. -/

/-- A WebSocket handle held by the registry. -/
abbrev Listener := Nat

/-- The global `subscriptions` dict: `none` means the key is absent. -/
def Registry : Type := Int → Option (List Listener)

/-- Python `set.add`: no-op when the element is already a member. -/
def setAdd (s : List Listener) (websocket : Listener) : List Listener :=
  if websocket ∈ s then s else s ++ [websocket]

/-- The connect half of `websocket_endpoint` (lines 106-109):
`if user_id not in subscriptions: subscriptions[user_id] = set()` then
`subscriptions[user_id].add(websocket)`. -/
def subscribe (subs : Registry) (user_id : Int) (websocket : Listener) : Registry :=
  let s := match subs user_id with
    | none => ([] : List Listener)
    | some s => s
  fun u => if u = user_id then some (setAdd s websocket) else subs u

/-- The disconnect half of `websocket_endpoint` (line 114):
`subscriptions[user_id].remove(websocket)`. Python raises `KeyError` both when
`user_id` is not a key of the dict and when `websocket` is not a member of the
set (`set.remove` on a non-member raises). -/
def unsubscribe (subs : Registry) (user_id : Int) (websocket : Listener) :
    Except String Registry :=
  match subs user_id with
  | none => .error "KeyError"
  | some s =>
      if websocket ∈ s then
        .ok (fun u => if u = user_id then some (s.erase websocket) else subs u)
      else .error "KeyError"

/-- The `for websocket in subscriptions[user_id]: await websocket.send_json(...)`
loop of `send_data_to_subscribers` (lines 120-121). `sendOk ws` tells whether
the send to `ws` succeeds; there is no `try`/`except` around the `await`, so
the first failing send raises out of the loop. Returns the listeners actually
delivered to (in iteration order) and the listener whose send raised, if any. -/
def sendLoop (sendOk : Listener → Bool) :
    List Listener → List Listener → List Listener × Option Listener
  | [], delivered => (delivered, none)
  | websocket :: rest, delivered =>
      if sendOk websocket then sendLoop sendOk rest (delivered ++ [websocket])
      else (delivered, some websocket)

/-- Embedding of `send_data_to_subscribers` (lines 118-121): if `user_id` is a key, iterate
its listener set sending the data; otherwise do nothing. The function contains
no code that mutates `subscriptions`, so the registry is returned unchanged
(third component). -/
def send_data_to_subscribers (sendOk : Listener → Bool) (subs : Registry)
    (user_id : Int) : (List Listener × Option Listener) × Registry :=
  match subs user_id with
  | none => (([], none), subs)
  | some listeners => (sendLoop sendOk listeners [], subs)

/-! ## Ingestion Gateway: the batch create endpoint (src/store/main.py 127-159) -/

/-- What the create handler hands back to HTTP: either a single
`insert_values` dict (the Python returns `inserted_records[0]`) or an
`HTTPException` with a status code and detail. -/
inductive CreateResponse where
  | ok (record : InsertValues)
  | httpError (status : Nat) (detail : String)
  deriving DecidableEq, Repr

/-- The `for item in data` loop (lines 134-151). `insertFails i` tells whether
the database insert of the i-th item raises. On success the insert is
committed and its values appended to `inserted_records`; on failure the
statement is rolled back and `HTTPException(400, ...)` is raised, aborting the
loop (prior commits remain). -/
def createLoop (insertFails : Nat → Bool) :
    List ProcessedAgentData → Nat → Store → List InsertValues →
    Except (Nat × String) (List InsertValues) × Store
  | [], _, st, inserted_records => (.ok inserted_records, st)
  | item :: rest, i, st, inserted_records =>
      if insertFails i then (.error (400, "Error inserting data"), st)
      else
        let v := insertValues item
        createLoop insertFails rest (i + 1) (st.insert v).2 (inserted_records ++ [v])

/-- Embedding of `create_processed_agent_data` (lines 127-159): run the insert loop; if it
raised, that `HTTPException` is the response; otherwise return
`inserted_records[0]`, or 400 "No data inserted" when the batch was empty.
The third component lists the `send_data_to_subscribers` calls the handler
makes (as `(user_id, data)` pairs): the handler's body never calls
`send_data_to_subscribers`, so this list is always empty. -/
def create_processed_agent_data (insertFails : Nat → Bool)
    (data : List ProcessedAgentData) (st : Store) :
    CreateResponse × Store × List (Int × InsertValues) :=
  match createLoop insertFails data 0 st [] with
  | (.error e, st') => (.httpError e.1 e.2, st', [])
  | (.ok inserted_records, st') =>
      match inserted_records with
      | [] => (.httpError 400 "No data inserted", st', [])
      | first :: _ => (.ok first, st', [])

/-! ## Concrete sample inputs used by witnesses and counterexamples -/

/-- A composite reading for user 7 with vertical acceleration 0. -/
def sampleFlat : AgentData :=
  { user_id := 7,
    accelerometer := { x := 1, y := 0, z := 3 },
    gps := { latitude := 10, longitude := 20 },
    timestamp := 5 }

/-- A reading sitting exactly on the upper classification boundary. -/
def sampleY100 : AgentData :=
  { sampleFlat with accelerometer := { x := 0, y := 100, z := 0 } }

/-- A classified record for user 7. -/
def padFlat : ProcessedAgentData :=
  { road_state := "flat", agent_data := sampleFlat }

/-- A second, distinct classified record for user 7. -/
def padPit : ProcessedAgentData :=
  { road_state := "pit",
    agent_data :=
      { user_id := 7,
        accelerometer := { x := 0, y := -200, z := 0 },
        gps := { latitude := 1, longitude := 2 },
        timestamp := 6 } }

/-- The registry before any listener connects: the dict is empty. -/
def emptyRegistry : Registry := fun _ => none

/-- A registry with one live listener (handle 1) subscribed to user 7. -/
def regUser7 : Registry := subscribe emptyRegistry 7 1

/-- A registry with listeners 1 and 2 subscribed to user 42, in that order. -/
def regUser42 : Registry := subscribe (subscribe emptyRegistry 42 1) 42 2

/-- A store with no rows whose next server-assigned id is 1. -/
def emptyStore : Store := { rows := [], next_id := 1 }

end IES

namespace IES

/-! ## Helper lemmas -/

theorem zip3_length {α β γ : Type} (as : List α) (bs : List β) (cs : List γ) :
    (zip3 as bs cs).length = min as.length (min bs.length cs.length) := by
  induction as generalizing bs cs with
  | nil => simp [zip3]
  | cons a as ih =>
      cases bs with
      | nil => simp [zip3]
      | cons b bs =>
          cases cs with
          | nil => simp [zip3]
          | cons c cs =>
              simp only [zip3, List.length_cons, ih]
              omega

theorem zip3_getElem? {α β γ : Type} (as : List α) (bs : List β) (cs : List γ)
    (i : Nat) :
    (zip3 as bs cs)[i]? =
      match as[i]?, bs[i]?, cs[i]? with
      | some a, some b, some c => some (a, b, c)
      | _, _, _ => none := by
  induction as generalizing bs cs i with
  | nil => simp [zip3]
  | cons a as ih =>
      cases bs with
      | nil => simp [zip3]
      | cons b bs =>
          cases cs with
          | nil => cases i <;> simp [zip3]
          | cons c cs =>
              cases i with
              | zero => simp [zip3]
              | succ i => simpa [zip3] using ih bs cs i

/-- Python `set.add` always makes the element a member. -/
theorem setAdd_mem (s : List Listener) (w : Listener) : w ∈ setAdd s w := by
  unfold setAdd
  split_ifs with h
  · exact h
  · simp

/-- Python `set.add` of an element already present is a no-op. -/
theorem setAdd_idem (s : List Listener) (w : Listener) :
    setAdd (setAdd s w) w = setAdd s w := by
  rw [setAdd, if_pos (setAdd_mem s w)]

/-! ## Claims -/

/-- Claim C4: the classifier returns exactly one of pit / hill / flat and never
unknown; it is deterministic (equal inputs give equal outputs); and the
boundary values y = -100 and y = 100 both classify as flat (the thresholds at
lines 18 and 20 of data_processing.py are strict). -/
theorem classifier_total_deterministic (a : AgentData) :
    ((process_agent_data a).road_state = "pit" ∨
      (process_agent_data a).road_state = "hill" ∨
      (process_agent_data a).road_state = "flat") ∧
    (process_agent_data a).road_state ≠ "unknown" ∧
    (∀ b : AgentData, a = b → process_agent_data a = process_agent_data b) ∧
    (a.accelerometer.y = -100 → (process_agent_data a).road_state = "flat") ∧
    (a.accelerometer.y = 100 → (process_agent_data a).road_state = "flat") := by
  refine ⟨?_, ?_, fun b hb => by rw [hb], ?_, ?_⟩
  · simp only [process_agent_data]
    split_ifs <;> simp
  · simp only [process_agent_data]
    split_ifs <;> simp
  · intro hy
    simp only [process_agent_data]
    split_ifs with h1 h2 <;> first | rfl | omega
  · intro hy
    simp only [process_agent_data]
    split_ifs with h1 h2 <;> first | rfl | omega

/-- Witness for C4: the boundary reading with y = 100 classifies as flat. -/
theorem classifier_total_deterministic_witness :
    (process_agent_data sampleY100).road_state = "flat" :=
  (classifier_total_deterministic sampleY100).2.2.2.2 rfl

/-- Claim C7: aggregation over three sensor sequences of possibly unequal
length yields exactly min of the three lengths many records, the i-th built
from the i-th element of each input, carrying the configured user id and the
aggregation-time instant of that iteration. -/
theorem aggregation_alignment (accelerometer_data : List Accelerometer)
    (gps_data : List Gps) (parking_data : List Parking)
    (now : Nat → Nat) (user_id : Int) :
    (FileDatasource.read accelerometer_data gps_data parking_data now user_id).length =
      min accelerometer_data.length (min gps_data.length parking_data.length) ∧
    ∀ i : Nat,
      (FileDatasource.read accelerometer_data gps_data parking_data now user_id)[i]? =
        match accelerometer_data[i]?, gps_data[i]?, parking_data[i]? with
        | some a, some g, some p =>
            some { accelerometer := a, gps := g, parking := p,
                   timestamp := now i, user_id := user_id }
        | _, _, _ => none := by
  constructor
  · simp [FileDatasource.read, zip3_length]
  · intro i
    simp only [FileDatasource.read, List.getElem?_mapIdx, zip3_getElem?]
    cases accelerometer_data[i]? <;> cases gps_data[i]? <;> cases parking_data[i]? <;> rfl

/-- Counterexample to claim C8 as stated: on a concrete input the classifier's
object-event trace contains an in-place mutation of the already-constructed
`ProcessedAgentData` (the `process_data.road_state = "flat"` assignment), so
it is false that no operation mutates a `ProcessedAgentData` in place. -/
theorem classifier_mutation_counterexample :
    PadEvent.setRoadState "flat" ∈ process_agent_data_events sampleFlat ∧
    process_agent_data_events sampleFlat =
      [PadEvent.create "unknown", PadEvent.setRoadState "flat"] := by decide

/-- Claim C8 amended: the classifier constructs the `ProcessedAgentData` with
road_state "unknown" and then mutates the existing object's road_state in
place exactly once, setting it to the final classification; the value it
returns never has road_state "unknown". -/
theorem classifier_single_inplace_mutation (a : AgentData) :
    process_agent_data_events a =
      [PadEvent.create "unknown",
       PadEvent.setRoadState (process_agent_data a).road_state] ∧
    (process_agent_data a).road_state ≠ "unknown" := by
  constructor
  · simp only [process_agent_data_events, process_agent_data]
    split_ifs <;> rfl
  · simp only [process_agent_data]
    split_ifs <;> simp

/-- If every send up to the first failing listener succeeds, the send loop
delivers exactly to the listeners before the failure and then raises. -/
theorem sendLoop_append_fail (sendOk : Listener → Bool) (front rest : List Listener)
    (w : Listener) (delivered : List Listener)
    (hfront : ∀ x ∈ front, sendOk x = true) (hw : sendOk w = false) :
    sendLoop sendOk (front ++ w :: rest) delivered = (delivered ++ front, some w) := by
  induction front generalizing delivered with
  | nil => simp [sendLoop, hw]
  | cons x xs ih =>
      have hx : sendOk x = true := hfront x (by simp)
      simp only [List.cons_append, sendLoop, hx, if_true, List.append_eq]
      rw [ih (delivered ++ [x]) fun y hy => hfront y (by simp [hy])]
      simp

/-- Claim C3: creating a `ProcessedAgentData` in the store and reading back the
id assigned by that create returns a row whose fields all equal the submitted
record's, apart from the server-assigned id. The hypothesis is the store's
id-freshness invariant: every existing row's id is below `next_id`. -/
theorem store_roundtrip (st : Store) (r : ProcessedAgentData)
    (h : ∀ row ∈ st.rows, row.id < st.next_id) :
    ∃ row : Row,
      read_processed_agent_data (st.create r).2 (st.create r).1.id = Except.ok row ∧
      row.road_state = r.road_state ∧
      row.user_id = r.agent_data.user_id ∧
      row.x = r.agent_data.accelerometer.x ∧
      row.y = r.agent_data.accelerometer.y ∧
      row.z = r.agent_data.accelerometer.z ∧
      row.latitude = r.agent_data.gps.latitude ∧
      row.longitude = r.agent_data.gps.longitude ∧
      row.timestamp = r.agent_data.timestamp := by
  refine ⟨Row.ofValues st.next_id (insertValues r), ?_, rfl, rfl, rfl, rfl, rfl, rfl, rfl, rfl⟩
  have hnone : st.rows.find? (fun row => row.id == st.next_id) = none := by
    rw [List.find?_eq_none]
    intro x hx
    have := h x hx
    simp only [beq_iff_eq]
    omega
  simp [read_processed_agent_data, Store.create, Store.insert, find_row,
    List.find?_append, hnone, Row.ofValues]

/-- Witness for C3: round-trip through an empty store with a concrete record. -/
theorem store_roundtrip_witness :
    ∃ row : Row,
      read_processed_agent_data (emptyStore.create padFlat).2
          (emptyStore.create padFlat).1.id = Except.ok row ∧
      row.road_state = padFlat.road_state ∧
      row.user_id = padFlat.agent_data.user_id ∧
      row.x = padFlat.agent_data.accelerometer.x ∧
      row.y = padFlat.agent_data.accelerometer.y ∧
      row.z = padFlat.agent_data.accelerometer.z ∧
      row.latitude = padFlat.agent_data.gps.latitude ∧
      row.longitude = padFlat.agent_data.gps.longitude ∧
      row.timestamp = padFlat.agent_data.timestamp :=
  store_roundtrip emptyStore padFlat (by simp [emptyStore])

/-- Claim C9: on an id with no corresponding row, the get, update and delete
endpoints each report 404 NotFound and return the store unchanged; in
particular the update endpoint performs no write. -/
theorem not_found_behavior (st : Store) (missing_id : Nat) (d : ProcessedAgentData)
    (h : find_row st missing_id = none) :
    read_processed_agent_data st missing_id =
      Except.error (404, "ProcessedAgentData not found") ∧
    update_processed_agent_data st missing_id d =
      (Except.error (404, "ProcessedAgentData not found"), st) ∧
    delete_processed_agent_data st missing_id =
      (Except.error (404, "ProcessedAgentData not found"), st) := by
  refine ⟨?_, ?_, ?_⟩ <;>
    simp [read_processed_agent_data, update_processed_agent_data,
      delete_processed_agent_data, h]

/-- Witness for C9: id 3 in the empty store. -/
theorem not_found_behavior_witness :
    read_processed_agent_data emptyStore 3 =
      Except.error (404, "ProcessedAgentData not found") ∧
    update_processed_agent_data emptyStore 3 padFlat =
      (Except.error (404, "ProcessedAgentData not found"), emptyStore) ∧
    delete_processed_agent_data emptyStore 3 =
      (Except.error (404, "ProcessedAgentData not found"), emptyStore) :=
  not_found_behavior emptyStore 3 padFlat rfl

/-- Counterexample to claim C5 as stated: listeners 1 and 2 are subscribed to
user 42 (iteration order [1, 2]) and the send to listener 1 fails. Delivery
aborts — the remaining listener 2 receives nothing (delivered list is empty) —
and the failing listener 1 is not removed: user 42's set still is [1, 2]. -/
theorem publish_failure_isolation_counterexample :
    (send_data_to_subscribers (fun w => w != 1) regUser42 42).1 = ([], some 1) ∧
    (send_data_to_subscribers (fun w => w != 1) regUser42 42).2 42 = some [1, 2] := by
  constructor
  · decide
  · decide

/-- Claim C5 amended: when a send fails partway through a publish, the
listeners iterated before the failing one have received the record, every
listener after it receives nothing (the exception aborts the loop), and the
registry — including the failing listener's membership — is left unchanged. -/
theorem publish_failure_aborts_rest (sendOk : Listener → Bool) (subs : Registry)
    (user_id : Int) (front rest : List Listener) (w : Listener)
    (hs : subs user_id = some (front ++ w :: rest))
    (hfront : ∀ x ∈ front, sendOk x = true) (hw : sendOk w = false) :
    send_data_to_subscribers sendOk subs user_id = ((front, some w), subs) := by
  simp only [send_data_to_subscribers, hs]
  rw [sendLoop_append_fail sendOk front rest w [] hfront hw]
  simp

/-- Witness for C5 amended: sending to listener 2 of user 42 fails; listener 1
(iterated first) still received the record, and listener 2 stays subscribed. -/
theorem publish_failure_aborts_rest_witness :
    send_data_to_subscribers (fun w => w != 2) regUser42 42 = (([1], some 2), regUser42) :=
  publish_failure_aborts_rest (fun w => w != 2) regUser42 42 [1] [] 2
    (by decide) (by decide) (by decide)

/-- Counterexample to claim C6 as stated: with user 42's listener set {2},
unsubscribing listener 1 — not a member — raises KeyError (Python's
`set.remove`), rather than being a no-op that raises no error. -/
theorem unsubscribe_nonmember_counterexample :
    unsubscribe (subscribe emptyRegistry 42 2) 42 1 = Except.error "KeyError" := rfl

/-- Claim C6 amended: unsubscribing removes the listener from that user's set;
unsubscribing a listener that is not a member of the set (or a user with no
set at all) raises KeyError; subscribing the same listener twice is idempotent
(set semantics). -/
theorem subscription_set_semantics (subs : Registry) (user_id : Int) (w : Listener) :
    subscribe (subscribe subs user_id w) user_id w = subscribe subs user_id w ∧
    (∀ s, subs user_id = some s → w ∈ s →
      ∃ subs', unsubscribe subs user_id w = Except.ok subs' ∧
        subs' user_id = some (s.erase w)) ∧
    (∀ s, subs user_id = some s → w ∉ s →
      unsubscribe subs user_id w = Except.error "KeyError") ∧
    (subs user_id = none → unsubscribe subs user_id w = Except.error "KeyError") := by
  refine ⟨?_, ?_, ?_, ?_⟩
  · funext u
    by_cases hu : u = user_id
    · cases hsub : subs user_id <;> simp [subscribe, hu, hsub, setAdd_idem]
    · simp [subscribe, hu]
  · intro s hs hw
    refine ⟨fun u => if u = user_id then some (s.erase w) else subs u, ?_, ?_⟩
    · simp [unsubscribe, hs, hw]
    · simp
  · intro s hs hw
    simp [unsubscribe, hs, hw]
  · intro hn
    simp [unsubscribe, hn]

/-- Witness for C6 amended: listener 3 subscribed to user 5 unsubscribes and
is removed from the set. -/
theorem subscription_set_semantics_witness :
    ∃ subs', unsubscribe (subscribe emptyRegistry 5 3) 5 3 = Except.ok subs' ∧
      subs' 5 = some (([3] : List Listener).erase 3) :=
  (subscription_set_semantics (subscribe emptyRegistry 5 3) 5 3).2.1 [3] rfl (by decide)

/-- Claim C1 (code bug): the batch create handler stores records but never
publishes them: for every batch, insert-failure oracle and store state, the
handler's list of `send_data_to_subscribers` calls is empty. Concretely,
storing one record for user 7 succeeds (it is committed and acknowledged)
while a live listener subscribed to user 7 receives no push. -/
theorem create_never_publishes :
    (∀ (insertFails : Nat → Bool) (data : List ProcessedAgentData) (st : Store),
      (create_processed_agent_data insertFails data st).2.2 = []) ∧
    (create_processed_agent_data (fun _ => false) [padFlat] emptyStore =
      (CreateResponse.ok (insertValues padFlat),
        { rows := [Row.ofValues 1 (insertValues padFlat)], next_id := 2 },
        ([] : List (Int × InsertValues))) ∧
      regUser7 7 = some [1]) := by
  refine ⟨?_, by decide, by decide⟩
  intro insertFails data st
  unfold create_processed_agent_data
  rcases hloop : createLoop insertFails data 0 st [] with ⟨res, st'⟩
  cases res with
  | error e => rfl
  | ok inserted_records => cases inserted_records <;> rfl

/-- Claim C2 (code bug): a successful batch create of two distinct records
commits both rows but responds with only the first record's values — a single
record, not one outcome per submitted record. -/
theorem create_returns_only_first :
    padFlat ≠ padPit ∧
    (create_processed_agent_data (fun _ => false) [padFlat, padPit] emptyStore).1 =
      CreateResponse.ok (insertValues padFlat) ∧
    (create_processed_agent_data (fun _ => false) [padFlat, padPit] emptyStore).2.1.rows =
      [Row.ofValues 1 (insertValues padFlat), Row.ofValues 2 (insertValues padPit)] := by
  refine ⟨by decide, by decide, by decide⟩

/-- Claim C10: on every store state, the list endpoint returns all rows and
never reports 404: the select-all query yields a list (possibly empty), never
`None`, so the error branch at line 190 of main.py is unreachable. -/
theorem list_never_404 (st : Store) :
    list_processed_agent_data st = Except.ok st.rows ∧
    ∀ e, list_processed_agent_data st ≠ Except.error e :=
  ⟨rfl, fun e => by simp [list_processed_agent_data, query_all]⟩

end IES
